import Mathlib

/-!
Shallow embedding of `src/controller/src/enhancements/player/mod.rs`
(the `PlayerESP` enhancement of the Valthrun controller): the entity
snapshot builder (`PlayerESP::update`), the visual-profile resolver
(`PlayerESP::resolve_esp_player_config`) and the render pass
(`PlayerESP::render`).

External collaborators (the `cs2` state registry, the view controller,
the imgui draw surface, `nalgebra`) are modelled as explicit function
fields; fallible resolver calls (Rust `?` on `anyhow::Result`) become
`Except Err`.  `f32` arithmetic is modelled over `ℚ`.
-/

abbrev Err := String

/-- 2-d screen point (imgui / mint vector, `f32` fields modelled as `ℚ`). -/
structure Vec2 where
  x : ℚ
  y : ℚ
deriving DecidableEq, Repr

/-- 3-d world point (`nalgebra::Vector3<f32>`, fields modelled as `ℚ`). -/
structure Vec3 where
  x : ℚ
  y : ℚ
  z : ℚ
deriving DecidableEq, Repr

instance : Add Vec3 := ⟨fun a b => ⟨a.x + b.x, a.y + b.y, a.z + b.z⟩⟩

instance : Sub Vec3 := ⟨fun a b => ⟨a.x - b.x, a.y - b.y, a.z - b.z⟩⟩

/-- RGBA colour, 0..1 floats modelled as `ℚ`. -/
structure Color where
  r : ℚ
  g : ℚ
  b : ℚ
  a : ℚ
deriving DecidableEq, Repr

/-- A colour evaluated as a function of (health fraction, distance):
the `EspColor::calculate_color` strategy of the settings crate,
consumed opaquely by this module. -/
abbrev ColorFn := ℚ → ℚ → Color

/-- CS2 entity handle; only its entity index is consumed here
(`handle().get_entity_index()`). -/
structure EntityHandle where
  entityIndex : Nat
deriving DecidableEq, Repr

/-- `StatePawnInfo`: the per-pawn attribute bundle resolved from the
`cs2` crate.  The `identity` field is modelled from the spec: the
ActorRecord carries an opaque identity (the entity index it was
resolved from); `StatePawnInfo` itself lives in the external `cs2`
crate, outside this module's source. -/
structure StatePawnInfo where
  identity : Nat
  team_id : Nat
  player_health : Int
  player_name : Option String
  position : Vec3
  /-- result of `pawn_info.weapon.display_name()` (external weapon table). -/
  weapon_display_name : String
  player_has_defuser : Bool
  player_flashtime : ℚ
deriving DecidableEq, Repr

/-- One bone's world state (`bone_states[i].position`). -/
structure BoneState where
  position : Vec3
deriving DecidableEq, Repr

/-- `StatePawnModelInfo`: the pawn's model address plus per-bone world states. -/
structure StatePawnModelInfo where
  model_address : Nat
  bone_states : List BoneState
deriving DecidableEq, Repr

/-- One entry of the model's bone table (`CS2Model::bones`). -/
structure Bone where
  name : String
  flags : Nat
  parent : Option Nat
deriving DecidableEq, Repr

/-- `BoneFlags::FlagHitbox` bit (value of the external flag constant). -/
def boneFlagHitbox : Nat := 256

/-- the `(bone.flags & BoneFlags::FlagHitbox as u32) == 0` test, negated. -/
def Bone.isHitbox (b : Bone) : Bool := b.flags &&& boneFlagHitbox ≠ 0

/-- `CS2Model`: hull corners plus the bone table. -/
structure CS2Model where
  vhull_min : Vec3
  vhull_max : Vec3
  bones : List Bone
deriving DecidableEq, Repr

/-- `PlayerPawnState` of the `cs2` crate; only `Alive` is distinguished. -/
inductive PlayerPawnState where
  | Alive
  | Other
deriving DecidableEq, Repr

/-- ESP box style setting. -/
inductive EspBoxType where
  | None
  | Box2D
  | Box3D
deriving DecidableEq, Repr

/-- ESP head-dot style setting. -/
inductive EspHeadDot where
  | None
  | Filled
  | NotFilled
deriving DecidableEq, Repr

/-- ESP health-bar placement setting. -/
inductive EspHealthBar where
  | None
  | Left
  | Right
  | Top
  | Bottom
deriving DecidableEq, Repr

/-- ESP tracer-line anchor setting. -/
inductive EspTracePosition where
  | None
  | TopLeft
  | TopCenter
  | TopRight
  | Center
  | BottomLeft
  | BottomCenter
  | BottomRight
deriving DecidableEq, Repr

/-- The per-player visual profile (`EspPlayerSettings` of the settings crate);
only the fields consumed by this module are modelled. -/
structure EspPlayerSettings where
  near_players : Bool
  near_players_distance : ℚ
  skeleton : Bool
  skeleton_color : ColorFn
  skeleton_width : ℚ
  head_dot : EspHeadDot
  head_dot_color : ColorFn
  head_dot_z : ℚ
  head_dot_base_radius : ℚ
  head_dot_thickness : ℚ
  box_type : EspBoxType
  box_color : ColorFn
  box_width : ℚ
  health_bar : EspHealthBar
  health_bar_width : ℚ
  info_name : Bool
  info_name_color : ColorFn
  info_weapon : Bool
  info_weapon_color : ColorFn
  info_hp_text : Bool
  info_hp_text_color : ColorFn
  info_flag_kit : Bool
  info_flag_flashed : Bool
  info_flags_color : ColorFn
  info_distance : Bool
  info_distance_color : ColorFn
  tracer_lines : EspTracePosition
  tracer_lines_color : ColorFn
  tracer_lines_width : ℚ

/-- A stored ESP configuration entry: the variant consumed here is
`EspConfig::Player`; every other variant is collapsed into `OtherKind`. -/
inductive EspConfig where
  | Player (s : EspPlayerSettings)
  | OtherKind

/-- Modelled from the spec: the selector hierarchy of the settings crate
(`EspSelector`, not part of this module's source).  A concrete selector
(team relation × visibility) falls back to the team selector and then to
the generic player selector. -/
inductive EspSelector where
  | Player
  | PlayerTeam (enemy : Bool)
  | PlayerTeamVisibility (enemy : Bool) (visible : Bool)
deriving DecidableEq, Repr

/-- Modelled from the spec: the derived configuration key of a selector. -/
def EspSelector.config_key : EspSelector → String
  | .Player => "player"
  | .PlayerTeam true => "player.enemy"
  | .PlayerTeam false => "player.team"
  | .PlayerTeamVisibility true true => "player.enemy.visible"
  | .PlayerTeamVisibility true false => "player.enemy.occluded"
  | .PlayerTeamVisibility false true => "player.team.visible"
  | .PlayerTeamVisibility false false => "player.team.occluded"

/-- Modelled from the spec: the fixed, hand-authored fallback graph
(`EspSelector::parent`), terminating at the generic player selector. -/
def EspSelector.parent : EspSelector → Option EspSelector
  | .Player => none
  | .PlayerTeam _ => some .Player
  | .PlayerTeamVisibility enemy _ => some (.PlayerTeam enemy)

/-- Number of strictly more general ancestors of a selector. -/
def EspSelector.depth : EspSelector → Nat
  | .Player => 0
  | .PlayerTeam _ => 1
  | .PlayerTeamVisibility _ _ => 2

/-- `AppSettings`: the two configuration maps consumed here
(selector key → enabled flag, selector key → profile). -/
structure AppSettings where
  esp_settings_enabled : String → Option Bool
  esp_settings : String → Option EspConfig

/-- The body of one iteration of the fallback loop in
`resolve_esp_player_config`: the selector matches when its per-key
enabled flag is true (`unwrap_or_default` gives `false`), a profile
exists under the key, and the profile is of player kind. -/
def selectorMatch (settings : AppSettings) (sel : EspSelector) : Option EspPlayerSettings :=
  if (settings.esp_settings_enabled sel.config_key).getD false then
    match settings.esp_settings sel.config_key with
    | some (EspConfig.Player s) => some s
    | _ => none
  else none

/-- The `while let Some(target) = esp_target.take()` loop of
`resolve_esp_player_config`: try the selector, else move to its parent. -/
def resolveLoop (settings : AppSettings) (sel : EspSelector) : Option EspPlayerSettings :=
  match selectorMatch settings sel with
  | some s => some s
  | none =>
    match hp : sel.parent with
    | some p => resolveLoop settings p
    | none => none
termination_by sel.depth
decreasing_by
  cases sel <;> simp_all [EspSelector.parent, EspSelector.depth] <;>
    subst hp <;> simp [EspSelector.depth]

/-- `PlayerESP::resolve_esp_player_config`: start from the most specific
selector (enemy = team mismatch, visibility stubbed to `true`) and walk
the fallback chain. -/
def resolve_esp_player_config (local_team_id : Nat) (settings : AppSettings)
    (target : StatePawnInfo) : Option EspPlayerSettings :=
  resolveLoop settings (.PlayerTeamVisibility (target.team_id ≠ local_team_id) true)

/-- The selector chain walked by the fallback loop, most specific first. -/
def selectorChain : EspSelector → List EspSelector
  | .Player => [.Player]
  | .PlayerTeam enemy => [.PlayerTeam enemy, .Player]
  | .PlayerTeamVisibility enemy visible =>
      [.PlayerTeamVisibility enemy visible, .PlayerTeam enemy, .Player]

/-- One entity of the entity list (`CEntityIdentity`): its handle and its
class info pointer, both resolved through fallible accessors. -/
structure EntityIdentity where
  handleRes : Except Err EntityHandle
  entity_class_info : Except Err Nat

/-- `ClassNameCache::lookup`: class info pointer → optional class name. -/
abbrev ClassNameCache := Nat → Except Err (Option String)

/-- The local player controller reference; only `m_iPendingTeamNum` is read. -/
structure LocalPlayerController where
  pending_team_num : Except Err Nat

/-- The state-registry context consumed by `PlayerESP::update`: every
`ctx.states.resolve::<T>(..)?` call becomes an `Except Err` field. -/
structure UpdateContext where
  entity_list : Except Err (List EntityIdentity)
  class_name_cache : Except Err ClassNameCache
  app_settings : Except Err AppSettings
  memory : Except Err Unit
  /-- `StateLocalPlayerController` resolution followed by
  `value_reference` (`none` = dangling reference). -/
  local_player_controller : Except Err (Option LocalPlayerController)
  /-- `LocalCameraControllerTarget` resolution: `target_entity_id`. -/
  view_target : Except Err (Option Nat)
  pawn_state : EntityHandle → Except Err PlayerPawnState
  pawn_info : EntityHandle → Except Err StatePawnInfo
  pawn_model : EntityHandle → Except Err StatePawnModelInfo

/-- One snapshot record (`PlayerESPInfo`). -/
structure PlayerESPInfo where
  pawn_info : StatePawnInfo
  pawn_model : StatePawnModelInfo
deriving DecidableEq, Repr

/-- The mutable `PlayerESP` state: the snapshot buffer and the cached
local team id (the `toggle` field is handled by the external `KeyToggle`
and enters `update` as the boolean `toggleEnabled`). -/
structure PlayerESP where
  players : List PlayerESPInfo
  local_team_id : Nat
deriving DecidableEq, Repr

/-- The `for entity_identity in entities.entities()` loop of
`PlayerESP::update`.  Returns the records pushed (in order) and, when a
`?` failed mid-loop, the error; records pushed before the failure are
kept, matching the in-place mutation of `self.players`. -/
def updateLoop (ctx : UpdateContext) (cache : ClassNameCache) (vt : Nat) :
    List EntityIdentity → List PlayerESPInfo × Option Err
  | [] => ([], none)
  | e :: rest =>
    match e.handleRes with
    | .error err => ([], some err)
    | .ok h =>
      if h.entityIndex = vt then updateLoop ctx cache vt rest
      else
        match e.entity_class_info with
        | .error err => ([], some err)
        | .ok ci =>
          match cache ci with
          | .error err => ([], some err)
          | .ok cls =>
            if cls ≠ some "C_CSPlayerPawn" then updateLoop ctx cache vt rest
            else
              match ctx.pawn_state h with
              | .error err => ([], some err)
              | .ok st =>
                if st ≠ PlayerPawnState.Alive then updateLoop ctx cache vt rest
                else
                  match ctx.pawn_info h with
                  | .error err => ([], some err)
                  | .ok pi =>
                    if pi.player_health ≤ 0 ∨ pi.player_name = none then
                      updateLoop ctx cache vt rest
                    else
                      match ctx.pawn_model h with
                      | .error err => ([], some err)
                      | .ok pm =>
                        let pr := updateLoop ctx cache vt rest
                        (⟨pi, pm⟩ :: pr.1, pr.2)

/-- `PlayerESP::update`.  The returned state reflects the in-place
mutations performed before returning (including partial pushes when the
result is an error); the `Except Err Unit` is the `anyhow::Result<()>`
handed to the caller.  The metrics record emitted on a toggle transition
is an external side effect and is not modelled. -/
def PlayerESP.update (ctx : UpdateContext) (toggleEnabled : Bool) (s : PlayerESP) :
    PlayerESP × Except Err Unit :=
  match ctx.entity_list with
  | .error e => (s, .error e)
  | .ok entities =>
    match ctx.class_name_cache with
    | .error e => (s, .error e)
    | .ok cache =>
      match ctx.app_settings with
      | .error e => (s, .error e)
      | .ok _settings =>
        let s := { s with players := [] }
        if ¬ toggleEnabled then (s, .ok ())
        else
          match ctx.memory with
          | .error e => (s, .error e)
          | .ok () =>
            match ctx.local_player_controller with
            | .error e => (s, .error e)
            | .ok none => (s, .ok ())
            | .ok (some ctl) =>
              match ctl.pending_team_num with
              | .error e => (s, .error e)
              | .ok team =>
                let s := { s with local_team_id := team }
                match ctx.view_target with
                | .error e => (s, .error e)
                | .ok none => (s, .ok ())
                | .ok (some vt) =>
                  let pr := updateLoop ctx cache vt entities
                  ({ s with players := pr.1 },
                   match pr.2 with
                   | none => .ok ()
                   | some e => .error e)

/-- A drawing command emitted to the imgui draw surface.  `infoLine` is
one text line pushed through the `PlayerInfoLayout` helper; its screen
placement is owned by the layout collaborator and not modelled. -/
inductive DrawCmd where
  | line (p1 p2 : Vec2) (color : Color) (thickness : ℚ)
  | rect (pmin pmax : Vec2) (color : Color) (filled : Bool) (thickness : ℚ)
  | circle (center : Vec2) (radius : ℚ) (color : Color) (filled : Bool) (thickness : ℚ)
  | infoLine (color : Color) (text : String)
deriving DecidableEq, Repr

/-- Modelled from the spec: the projection collaborator
(`crate::view::ViewController`, outside this module's source): camera
position, fallible world→screen projection, hull→2-d-box projection,
the 3-d box drawing helper and the screen bounds. -/
structure ViewController where
  camera_world_position : Option Vec3
  world_to_screen : Vec3 → Bool → Option Vec2
  calculate_box_2d : Vec3 → Vec3 → Option (Vec2 × Vec2)
  draw_box_3d : Vec3 → Vec3 → Color → ℚ → List DrawCmd
  screen_bounds : Vec2

/-- `UNITS_TO_METERS = 0.01905`. -/
def unitsToMeters : ℚ := 1905 / 100000

/-- `MAX_HEAD_SIZE = 250.0`. -/
def maxHeadSize : ℚ := 250

/-- `(player_health as f32 / 100.0).clamp(0.0, 1.0)`. -/
def relHealth (health : Int) : ℚ :=
  let q : ℚ := (health : ℚ) / 100
  if q < 0 then 0 else if q > 1 then 1 else q

/-- A render-pass failure: a propagated `?` error or the out-of-bounds
index panic of `bone_states[parent_index]`. -/
inductive RenderFault where
  | err (e : Err)
  | oob
deriving DecidableEq, Repr

/-- The skeleton-drawing loop body over `bones.zip(bone_states)`
(lines 218-252): skip non-hitbox bones, skip root bones, index the
parent bone's state directly (`none` models the Rust index panic),
project both endpoints and emit the segment when both succeed. -/
def skeletonLoop (view : ViewController) (states : List BoneState)
    (color : Color) (width : ℚ) : List (Bone × BoneState) → Option (List DrawCmd)
  | [] => some []
  | (bone, state) :: rest =>
    if ¬ bone.isHitbox then skeletonLoop view states color width rest
    else
      match bone.parent with
      | none => skeletonLoop view states color width rest
      | some parent_index =>
        match states.get? parent_index with
        | none => none
        | some parent_state =>
          match view.world_to_screen parent_state.position true with
          | none => skeletonLoop view states color width rest
          | some parent_position =>
            match view.world_to_screen state.position true with
            | none => skeletonLoop view states color width rest
            | some bone_position =>
              (skeletonLoop view states color width rest).map
                (fun cmds => .line parent_position bone_position color width :: cmds)

/-- The skeleton draw of one player: zip the model's bone table with the
pawn's bone states and run the loop. -/
def skeletonCmds (view : ViewController) (em : CS2Model) (pm : StatePawnModelInfo)
    (color : Color) (width : ℚ) : Option (List DrawCmd) :=
  skeletonLoop view pm.bone_states color width (em.bones.zip pm.bone_states)

/-- The head-marker draw of one player (lines 255-303): find the bone
named `head_0`, fetch its state, project the configured offset and
offset+2 points, cap the apparent size at `MAX_HEAD_SIZE`, scale by the
configured base radius and emit a filled or outlined circle. -/
def headDotCmds (es : EspPlayerSettings) (view : ViewController) (em : CS2Model)
    (pm : StatePawnModelInfo) (rel dist : ℚ) : List DrawCmd :=
  if es.head_dot = EspHeadDot.None then []
  else
    match em.bones.findIdx? (fun bone => bone.name = "head_0") with
    | none => []
    | some head_bone_index =>
      match pm.bone_states.get? head_bone_index with
      | none => []
      | some head_state =>
        match view.world_to_screen (head_state.position + ⟨0, 0, es.head_dot_z⟩) true,
              view.world_to_screen (head_state.position + ⟨0, 0, es.head_dot_z + 2⟩) true with
        | some head_position, some head_far =>
          let color := es.head_dot_color rel dist
          let radius := min |head_position.y - head_far.y| maxHeadSize * es.head_dot_base_radius
          match es.head_dot with
          | .Filled => [.circle head_position radius color true 1]
          | .NotFilled => [.circle head_position radius color false es.head_dot_thickness]
          | .None => []
        | _, _ => []

/-- The bounding-shape draw of one player (lines 305-332). -/
def boxCmds (es : EspPlayerSettings) (view : ViewController) (em : CS2Model)
    (pi : StatePawnInfo) (box2d : Option (Vec2 × Vec2)) (rel dist : ℚ) : List DrawCmd :=
  match es.box_type with
  | .Box2D =>
    match box2d with
    | some (vmin, vmax) => [.rect vmin vmax (es.box_color rel dist) false es.box_width]
    | none => []
  | .Box3D =>
    view.draw_box_3d (em.vhull_min + pi.position) (em.vhull_max + pi.position)
      (es.box_color rel dist) es.box_width
  | .None => []

/-- Health-bar placement (lines 335-379): the outer `[x, y, w, h]`
bounds of the bar for the configured side, outside the 2-d box. -/
def healthBarBounds (es : EspPlayerSettings) (vmin vmax : Vec2) :
    Option (ℚ × ℚ × ℚ × ℚ) :=
  match es.health_bar with
  | .None => none
  | .Left =>
    some (vmin.x - es.box_width / 2 - es.health_bar_width, vmin.y - es.box_width / 2,
      es.health_bar_width, vmax.y - vmin.y + es.box_width)
  | .Right =>
    some (vmax.x + es.box_width / 2, vmin.y - es.box_width / 2,
      es.health_bar_width, vmax.y - vmin.y + es.box_width)
  | .Top =>
    some (vmin.x - es.box_width / 2, vmin.y - es.box_width / 2 - es.health_bar_width,
      vmax.x - vmin.x + es.box_width, es.health_bar_width)
  | .Bottom =>
    some (vmin.x - es.box_width / 2, vmax.y + es.box_width / 2,
      vmax.x - vmin.x + es.box_width, es.health_bar_width)

/-- `BORDER_WIDTH = 1.0`. -/
def borderWidth : ℚ := 1

/-- The two-segment red/green fill of the health bar (lines 395-437),
after the border inset: the split axis is vertical when the inner width
is smaller than the inner height, horizontal otherwise. -/
def healthBarFill (box_x box_y box_width box_height rel : ℚ) : List DrawCmd :=
  let bx := box_x + borderWidth / 2 + 1
  let by_ := box_y + borderWidth / 2 + 1
  let bw := box_width - (borderWidth + 2)
  let bh := box_height - (borderWidth + 2)
  if bw < bh then
    let yoffset := by_ + (1 - rel) * bh
    [.rect ⟨bx, by_⟩ ⟨bx + bw, yoffset⟩ ⟨1, 0, 0, 1⟩ true 1,
     .rect ⟨bx, yoffset⟩ ⟨bx + bw, by_ + bh⟩ ⟨0, 1, 0, 1⟩ true 1]
  else
    let xoffset := bx + (1 - rel) * bw
    [.rect ⟨bx, by_⟩ ⟨xoffset, by_ + bh⟩ ⟨1, 0, 0, 1⟩ true 1,
     .rect ⟨xoffset, by_⟩ ⟨bx + bw, by_ + bh⟩ ⟨0, 1, 0, 1⟩ true 1]

/-- The black 1-unit border rectangle of the health bar (lines 383-393). -/
def healthBarBorder (box_x box_y box_width box_height : ℚ) : DrawCmd :=
  .rect ⟨box_x + borderWidth / 2, box_y + borderWidth / 2⟩
    ⟨box_x + box_width - borderWidth / 2, box_y + box_height - borderWidth / 2⟩
    ⟨0, 0, 0, 1⟩ false borderWidth

/-- The full health-bar draw of one player (lines 334-439), given the
projected 2-d box corners. -/
def healthBarCmds (es : EspPlayerSettings) (vmin vmax : Vec2) (rel : ℚ) : List DrawCmd :=
  match healthBarBounds es vmin vmax with
  | none => []
  | some (x, y, w, h) => healthBarBorder x y w h :: healthBarFill x y w h rel

/-- Modelled from the spec: the label stack (lines 441-513).  The
`PlayerInfoLayout` positioning helper lives in the `info_layout`
submodule, outside the given source; each `add_line` call is modelled
as one ordered `infoLine` command.  `formatMeters` models the external
`format!` of the distance with zero decimals. -/
def infoCmds (formatMeters : ℚ → String) (es : EspPlayerSettings)
    (pi : StatePawnInfo) (rel dist : ℚ) : List DrawCmd :=
  (if es.info_name then
    [.infoLine (es.info_name_color rel dist) (pi.player_name.getD "unknown")]
  else []) ++
  (if es.info_weapon then
    [.infoLine (es.info_weapon_color rel dist) pi.weapon_display_name]
  else []) ++
  (if es.info_hp_text then
    [.infoLine (es.info_hp_text_color rel dist) (toString pi.player_health ++ " HP")]
  else []) ++
  (let player_flags :=
    (if es.info_flag_kit ∧ pi.player_has_defuser then ["Kit"] else []) ++
    (if es.info_flag_flashed ∧ pi.player_flashtime > 0 then ["flashed"] else [])
  if player_flags ≠ [] then
    [.infoLine (es.info_flags_color rel dist) (String.intercalate ", " player_flags)]
  else []) ++
  (if es.info_distance then
    [.infoLine (es.info_distance_color rel dist) (formatMeters dist)]
  else [])

/-- The tracer anchor for a configured position (lines 516-531). -/
def tracerOrigin (pos : EspTracePosition) (screen_bounds : Vec2) : Option Vec2 :=
  match pos with
  | .TopLeft => some ⟨0, 0⟩
  | .TopCenter => some ⟨screen_bounds.x / 2, 0⟩
  | .TopRight => some ⟨screen_bounds.x, 0⟩
  | .Center => some ⟨screen_bounds.x / 2, screen_bounds.y / 2⟩
  | .BottomLeft => some ⟨0, screen_bounds.y⟩
  | .BottomCenter => some ⟨screen_bounds.x / 2, screen_bounds.y⟩
  | .BottomRight => some ⟨screen_bounds.x, screen_bounds.y⟩
  | .None => none

/-- The tracer-line draw of one player (lines 515-544). -/
def tracerCmds (es : EspPlayerSettings) (view : ViewController)
    (pi : StatePawnInfo) (rel dist : ℚ) : List DrawCmd :=
  match view.world_to_screen pi.position false with
  | none => []
  | some pos =>
    match tracerOrigin es.tracer_lines view.screen_bounds with
    | none => []
    | some origin => [.line origin pos (es.tracer_lines_color rel dist) es.tracer_lines_width]

/-- The state-registry context consumed by `PlayerESP::render`:
settings, view controller, the per-address `CS2Model` resolver, the
external vector norm of `nalgebra` and the external distance formatter. -/
structure RenderContext where
  app_settings : Except Err AppSettings
  view : Except Err ViewController
  models : Nat → Except Err CS2Model
  norm : Vec3 → ℚ
  formatMeters : ℚ → String

/-- The per-player body of the render loop (lines 193-545): distance,
profile resolution (a miss skips the player), the near-players filter,
the clamped health fraction, the model resolution (`?`) and the six
draw groups in source order. -/
def renderPlayer (rc : RenderContext) (settings : AppSettings) (view : ViewController)
    (view_world_position : Vec3) (local_team_id : Nat) (entry : PlayerESPInfo) :
    Except RenderFault (List DrawCmd) :=
  let pi := entry.pawn_info
  let pm := entry.pawn_model
  let distance := rc.norm (pi.position - view_world_position) * unitsToMeters
  match resolve_esp_player_config local_team_id settings pi with
  | none => .ok []
  | some es =>
    if es.near_players ∧ distance > es.near_players_distance then .ok []
    else
      let rel := relHealth pi.player_health
      match rc.models pm.model_address with
      | .error e => .error (.err e)
      | .ok em =>
        let player_2d_box := view.calculate_box_2d
          (em.vhull_min + pi.position) (em.vhull_max + pi.position)
        let skel :=
          if es.skeleton then
            skeletonCmds view em pm (es.skeleton_color rel distance) es.skeleton_width
          else some []
        match skel with
        | none => .error .oob
        | some skelDraws =>
          .ok (skelDraws ++
            headDotCmds es view em pm rel distance ++
            boxCmds es view em pi player_2d_box rel distance ++
            (match player_2d_box with
             | some (vmin, vmax) => healthBarCmds es vmin vmax rel
             | none => []) ++
            (match player_2d_box with
             | some _ => infoCmds rc.formatMeters es pi rel distance
             | none => []) ++
            tracerCmds es view pi rel distance)

/-- The `for entry in self.players.iter()` loop of `render`. -/
def renderLoop (rc : RenderContext) (settings : AppSettings) (view : ViewController)
    (view_world_position : Vec3) (local_team_id : Nat) :
    List PlayerESPInfo → Except RenderFault (List DrawCmd)
  | [] => .ok []
  | entry :: rest =>
    match renderPlayer rc settings view view_world_position local_team_id entry with
    | .error f => .error f
    | .ok cmds =>
      match renderLoop rc settings view view_world_position local_team_id rest with
      | .error f => .error f
      | .ok rests => .ok (cmds ++ rests)

/-- `PlayerESP::render`: resolve settings and view (`?`), return
successfully with no commands when no camera world position is
available, otherwise run the per-player loop. -/
def PlayerESP.render (rc : RenderContext) (s : PlayerESP) :
    Except RenderFault (List DrawCmd) :=
  match rc.app_settings with
  | .error e => .error (.err e)
  | .ok settings =>
    match rc.view with
    | .error e => .error (.err e)
    | .ok view =>
      match view.camera_world_position with
      | none => .ok []
      | some view_world_position =>
        renderLoop rc settings view view_world_position s.local_team_id s.players

/-- One step of the skeleton loop as a partial map over a
(bone, state) pair: the segment it emits, if any. -/
def skeletonEmit (view : ViewController) (states : List BoneState) (color : Color)
    (width : ℚ) (pair : Bone × BoneState) : Option DrawCmd :=
  if ¬ pair.1.isHitbox then none
  else
    match pair.1.parent with
    | none => none
    | some parent_index =>
      match states.get? parent_index with
      | none => none
      | some parent_state =>
        match view.world_to_screen parent_state.position true with
        | none => none
        | some parent_position =>
          match view.world_to_screen pair.2.position true with
          | none => none
          | some bone_position => some (.line parent_position bone_position color width)

/-- The alignment precondition of one bone: its parent index, when
present, is a valid index into the bone-state sequence. -/
def parentInBounds (states : List BoneState) (b : Bone) : Bool :=
  match b.parent with
  | some parent_index => parent_index < states.length
  | none => true

/-- A colour function ignoring both scalars, for concrete instances. -/
def cfnZero : ColorFn := fun _ _ => ⟨0, 0, 0, 0⟩

/-- A concrete profile with every option off, used as a template. -/
def esBase : EspPlayerSettings where
  near_players := false
  near_players_distance := 0
  skeleton := false
  skeleton_color := cfnZero
  skeleton_width := 1
  head_dot := .None
  head_dot_color := cfnZero
  head_dot_z := 0
  head_dot_base_radius := 1
  head_dot_thickness := 1
  box_type := .None
  box_color := cfnZero
  box_width := 2
  health_bar := .None
  health_bar_width := 10
  info_name := false
  info_name_color := cfnZero
  info_weapon := false
  info_weapon_color := cfnZero
  info_hp_text := false
  info_hp_text_color := cfnZero
  info_flag_kit := false
  info_flag_flashed := false
  info_flags_color := cfnZero
  info_distance := false
  info_distance_color := cfnZero
  tracer_lines := .None
  tracer_lines_color := cfnZero
  tracer_lines_width := 1

/-- A concrete profile stored under the most specific selector key. -/
def esSpecific : EspPlayerSettings := { esBase with box_width := 7 }

/-- A concrete profile stored under the generic selector key. -/
def esGeneric : EspPlayerSettings := { esBase with box_width := 42 }

/-- Concrete settings: every selector enabled, the concrete
enemy-visible key and the generic key both carrying player profiles. -/
def settingsBoth : AppSettings where
  esp_settings_enabled := fun _ => some true
  esp_settings := fun k =>
    if k = "player.enemy.visible" then some (.Player esSpecific)
    else if k = "player" then some (.Player esGeneric)
    else none

/-- Concrete settings with nothing enabled and no profiles stored. -/
def settingsNone : AppSettings where
  esp_settings_enabled := fun _ => some false
  esp_settings := fun _ => none

/-- A concrete pawn attribute bundle (alive, named). -/
def piW : StatePawnInfo where
  identity := 7
  team_id := 2
  player_health := 93
  player_name := some "alice"
  position := ⟨1, 2, 3⟩
  weapon_display_name := "ak47"
  player_has_defuser := false
  player_flashtime := 0

/-- A concrete pawn model bundle. -/
def pmW : StatePawnModelInfo where
  model_address := 3
  bone_states := [⟨⟨0, 0, 0⟩⟩]

/-- A concrete update context with one pawn entity (index 7) passing
every filter; the camera target is entity 1. -/
def ctxW : UpdateContext where
  entity_list := .ok [⟨.ok ⟨7⟩, .ok 0⟩]
  class_name_cache := .ok fun _ => .ok (some "C_CSPlayerPawn")
  app_settings := .ok settingsNone
  memory := .ok ()
  local_player_controller := .ok (some ⟨.ok 3⟩)
  view_target := .ok (some 1)
  pawn_state := fun _ => .ok .Alive
  pawn_info := fun h => .ok { piW with identity := h.entityIndex }
  pawn_model := fun _ => .ok pmW

/-- The record `ctxW`'s single entity resolves to. -/
def piW7 : StatePawnInfo := { piW with identity := 7 }

/-- A concrete update context whose second entity (index 3) fails
attribute resolution with a transient read error; the first entity
(index 2) passes every filter. -/
def ctxC3 : UpdateContext where
  entity_list := .ok [⟨.ok ⟨2⟩, .ok 0⟩, ⟨.ok ⟨3⟩, .ok 0⟩]
  class_name_cache := .ok fun _ => .ok (some "C_CSPlayerPawn")
  app_settings := .ok settingsNone
  memory := .ok ()
  local_player_controller := .ok (some ⟨.ok 3⟩)
  view_target := .ok (some 0)
  pawn_state := fun _ => .ok .Alive
  pawn_info := fun h =>
    if h.entityIndex = 3 then .error "read timeout"
    else .ok { piW with identity := h.entityIndex }
  pawn_model := fun _ => .ok pmW

/-- The record `ctxC3`'s first entity resolves to. -/
def piW2 : StatePawnInfo := { piW with identity := 2 }

/-- A concrete update context identical to `ctxW` except that no camera
target identity is resolvable. -/
def ctxNoTarget : UpdateContext := { ctxW with view_target := .ok none }

/-- A concrete view controller whose projection maps a world point
`(x, y, z)` to the screen point `(x, z)` and always succeeds. -/
def viewProj : ViewController where
  camera_world_position := some ⟨0, 0, 0⟩
  world_to_screen := fun v _ => some ⟨v.x, v.z⟩
  calculate_box_2d := fun _ _ => none
  draw_box_3d := fun _ _ _ _ => []
  screen_bounds := ⟨100, 100⟩

/-- A concrete view controller with no camera world position. -/
def viewNoCam : ViewController := { viewProj with camera_world_position := none }

/-- A concrete render context over `settingsNone` and `viewProj`. -/
def rcW : RenderContext where
  app_settings := .ok settingsNone
  view := .ok viewProj
  models := fun _ => .ok ⟨⟨0, 0, 0⟩, ⟨0, 0, 0⟩, []⟩
  norm := fun _ => 0
  formatMeters := fun _ => "0m"

/-- A concrete render context over `settingsNone` and `viewNoCam`. -/
def rcNoCam : RenderContext := { rcW with view := .ok viewNoCam }

/-- A concrete snapshot record built from `piW` and `pmW`. -/
def entryW : PlayerESPInfo := ⟨piW, pmW⟩

/-- A bone table with a single hitbox bone whose parent index 5 is out
of bounds for a one-element bone-state sequence. -/
def emOob : CS2Model := ⟨⟨0, 0, 0⟩, ⟨0, 0, 0⟩, [⟨"b", 256, some 5⟩]⟩

/-- A one-element bone-state sequence. -/
def pmOob : StatePawnModelInfo := ⟨0, [⟨⟨0, 0, 0⟩⟩]⟩

/-- A bone table with an aligned hitbox bone (parent index 0 is valid). -/
def emIn : CS2Model := ⟨⟨0, 0, 0⟩, ⟨0, 0, 0⟩, [⟨"a", 256, some 0⟩]⟩

/-- A two-bone table: a hitbox root and a hitbox child of the root. -/
def emTwo : CS2Model :=
  ⟨⟨0, 0, 0⟩, ⟨0, 0, 0⟩, [⟨"root", 256, none⟩, ⟨"child", 256, some 0⟩]⟩

/-- Bone states matching `emTwo`: the root at height 10, the child at
height 20. -/
def pmTwo : StatePawnModelInfo := ⟨0, [⟨⟨0, 0, 10⟩⟩, ⟨⟨1, 0, 20⟩⟩]⟩

/-- An opaque white colour for concrete skeleton instances. -/
def colW : Color := ⟨1, 1, 1, 1⟩

/-- A profile drawing a filled head dot with base radius 2 (a scale
factor above 1). -/
def esHead2 : EspPlayerSettings :=
  { esBase with head_dot := .Filled, head_dot_z := 0, head_dot_base_radius := 2,
                head_dot_color := fun _ _ => colW }

/-- A profile drawing a filled head dot with base radius 1/2. -/
def esHeadHalf : EspPlayerSettings := { esHead2 with head_dot_base_radius := 1 / 2 }

/-- A view controller projecting `(x, y, z)` to `(0, 150 z)`: the two
head probe points 2 world units apart land 300 pixels apart. -/
def viewHead : ViewController := { viewProj with world_to_screen := fun v _ => some ⟨0, v.z * 150⟩ }

/-- A model whose only bone is the head bone. -/
def emHead : CS2Model := ⟨⟨0, 0, 0⟩, ⟨0, 0, 0⟩, [⟨"head_0", 0, none⟩]⟩

/-- A bone state placing the head at the world origin. -/
def pmHead : StatePawnModelInfo := ⟨0, [⟨⟨0, 0, 0⟩⟩]⟩

/-- A profile with a left-placed health bar (box width 4, bar width 10). -/
def esBar : EspPlayerSettings :=
  { esBase with health_bar := .Left, box_width := 4, health_bar_width := 10 }

lemma resolveLoop_player (settings : AppSettings) :
    resolveLoop settings .Player = selectorMatch settings .Player := by
  rw [resolveLoop]
  cases hm : selectorMatch settings .Player <;>
    simp [EspSelector.parent, hm]

lemma resolveLoop_team (settings : AppSettings) (enemy : Bool) :
    resolveLoop settings (.PlayerTeam enemy) =
      match selectorMatch settings (.PlayerTeam enemy) with
      | some s => some s
      | none => selectorMatch settings .Player := by
  rw [resolveLoop]
  cases hm : selectorMatch settings (.PlayerTeam enemy) <;>
    simp [EspSelector.parent, hm, resolveLoop_player]

lemma resolveLoop_tv (settings : AppSettings) (enemy visible : Bool) :
    resolveLoop settings (.PlayerTeamVisibility enemy visible) =
      match selectorMatch settings (.PlayerTeamVisibility enemy visible) with
      | some s => some s
      | none =>
        match selectorMatch settings (.PlayerTeam enemy) with
        | some s => some s
        | none => selectorMatch settings .Player := by
  rw [resolveLoop]
  cases hm : selectorMatch settings (.PlayerTeamVisibility enemy visible) <;>
    simp [EspSelector.parent, hm, resolveLoop_team]

lemma resolveLoop_eq_findSome (settings : AppSettings) (sel : EspSelector) :
    resolveLoop settings sel = (selectorChain sel).findSome? (selectorMatch settings) := by
  cases sel with
  | Player =>
    rw [resolveLoop_player]
    cases hm : selectorMatch settings .Player <;>
      simp [selectorChain, List.findSome?, hm]
  | PlayerTeam enemy =>
    rw [resolveLoop_team]
    cases hm : selectorMatch settings (.PlayerTeam enemy) <;>
      cases hm2 : selectorMatch settings .Player <;>
        simp [selectorChain, List.findSome?, hm, hm2]
  | PlayerTeamVisibility enemy visible =>
    rw [resolveLoop_tv]
    cases hm : selectorMatch settings (.PlayerTeamVisibility enemy visible) <;>
      cases hm1 : selectorMatch settings (.PlayerTeam enemy) <;>
        cases hm2 : selectorMatch settings .Player <;>
          simp [selectorChain, List.findSome?, hm, hm1, hm2]

/-- C4: profile resolution walks the selector chain from most specific
to most general and returns the first selector whose enabled flag is
true, whose key maps to a profile, and whose profile is of player kind
(`List.findSome?` over the chain); in particular a matching most
specific selector wins over any ancestor, and a resolution miss makes
the render loop emit no draw command for that actor. -/
theorem resolve_config_first_enabled_match :
    (∀ (local_team_id : Nat) (settings : AppSettings) (target : StatePawnInfo),
      resolve_esp_player_config local_team_id settings target =
        (selectorChain (.PlayerTeamVisibility (target.team_id ≠ local_team_id) true)).findSome?
          (selectorMatch settings))
    ∧ (∀ (local_team_id : Nat) (settings : AppSettings) (target : StatePawnInfo)
        (es : EspPlayerSettings),
        selectorMatch settings (.PlayerTeamVisibility (target.team_id ≠ local_team_id) true)
          = some es →
        resolve_esp_player_config local_team_id settings target = some es)
    ∧ (∀ (rc : RenderContext) (settings : AppSettings) (view : ViewController)
        (vwp : Vec3) (local_team_id : Nat) (entry : PlayerESPInfo),
        resolve_esp_player_config local_team_id settings entry.pawn_info = none →
        renderPlayer rc settings view vwp local_team_id entry = .ok []) := by
  refine ⟨?_, ?_, ?_⟩
  · intro local_team_id settings target
    exact resolveLoop_eq_findSome settings _
  · intro local_team_id settings target es hm
    unfold resolve_esp_player_config
    rw [resolveLoop_tv, hm]
  · intro rc settings view vwp local_team_id entry hres
    simp only [renderPlayer, hres]

/-- Witness for C4: with both the concrete enemy-visible key and the
generic key enabled and populated, resolution returns the concrete
profile; with nothing enabled, the render loop emits nothing for the
actor. -/
theorem resolve_config_first_enabled_match_witness :
    resolve_esp_player_config 0 settingsBoth piW = some esSpecific
    ∧ renderPlayer rcW settingsNone viewProj ⟨0, 0, 0⟩ 0 entryW = .ok [] := by
  constructor
  · exact resolve_config_first_enabled_match.2.1 0 settingsBoth piW esSpecific (by rfl)
  · exact resolve_config_first_enabled_match.2.2 rcW settingsNone viewProj ⟨0, 0, 0⟩ 0 entryW
      (by unfold resolve_esp_player_config; rw [resolveLoop_tv]; rfl)

/-- C5: the selector fallback chain of any starting selector follows
the parent links, has at most 3 nodes, ends at the generic player
selector (which has no parent) and repeats no selector, so the parent
chain is cycle-free and the fallback loop terminates. -/
theorem selector_parent_chain_terminates :
    ∀ sel : EspSelector,
      selectorChain sel = sel :: (Option.elim sel.parent [] selectorChain)
      ∧ (selectorChain sel).length ≤ 3
      ∧ (selectorChain sel).getLast? = some EspSelector.Player
      ∧ EspSelector.Player.parent = none
      ∧ (selectorChain sel).Nodup := by
  intro sel
  cases sel with
  | Player => decide
  | PlayerTeam enemy => cases enemy <;> decide
  | PlayerTeamVisibility enemy visible => cases enemy <;> cases visible <;> decide

lemma updateLoop_mem_spec (ctx : UpdateContext) (cache : ClassNameCache) (vt : Nat)
    (entities : List EntityIdentity) :
    ∀ p ∈ (updateLoop ctx cache vt entities).1,
      0 < p.pawn_info.player_health ∧ p.pawn_info.player_name.isSome = true ∧
      ∃ h : EntityHandle, h.entityIndex ≠ vt ∧ ctx.pawn_info h = Except.ok p.pawn_info := by
  induction entities with
  | nil => simp [updateLoop]
  | cons e rest ih =>
    intro p hp
    rw [updateLoop] at hp
    cases he : e.handleRes with
    | error err => simp only [he] at hp; simp at hp
    | ok h =>
      simp only [he] at hp
      by_cases hidx : h.entityIndex = vt
      · rw [if_pos hidx] at hp
        exact ih p hp
      · rw [if_neg hidx] at hp
        cases hci : e.entity_class_info with
        | error err => simp only [hci] at hp; simp at hp
        | ok ci =>
          simp only [hci] at hp
          cases hcl : cache ci with
          | error err => simp only [hcl] at hp; simp at hp
          | ok cls =>
            simp only [hcl] at hp
            by_cases hcls : cls ≠ some "C_CSPlayerPawn"
            · rw [if_pos hcls] at hp
              exact ih p hp
            · rw [if_neg hcls] at hp
              cases hst : ctx.pawn_state h with
              | error err => simp only [hst] at hp; simp at hp
              | ok st =>
                simp only [hst] at hp
                by_cases hal : st ≠ PlayerPawnState.Alive
                · rw [if_pos hal] at hp
                  exact ih p hp
                · rw [if_neg hal] at hp
                  cases hpi : ctx.pawn_info h with
                  | error err => simp only [hpi] at hp; simp at hp
                  | ok pi =>
                    simp only [hpi] at hp
                    by_cases hflt : pi.player_health ≤ 0 ∨ pi.player_name = none
                    · rw [if_pos hflt] at hp
                      exact ih p hp
                    · rw [if_neg hflt] at hp
                      cases hpm : ctx.pawn_model h with
                      | error err => simp only [hpm] at hp; simp at hp
                      | ok pm =>
                        simp only [hpm] at hp
                        push_neg at hflt
                        change p ∈ (⟨pi, pm⟩ : PlayerESPInfo) ::
                          (updateLoop ctx cache vt rest).1 at hp
                        rcases List.mem_cons.mp hp with rfl | hmem
                        · exact ⟨hflt.1, Option.isSome_iff_ne_none.mpr hflt.2, h, hidx, hpi⟩
                        · exact ih p hmem

lemma update_ok_cases (ctx : UpdateContext) (tog : Bool) (s s' : PlayerESP)
    (hupd : PlayerESP.update ctx tog s = (s', Except.ok ())) :
    s'.players = [] ∨
    ∃ entities cache vt, ctx.entity_list = Except.ok entities ∧
      ctx.class_name_cache = Except.ok cache ∧ ctx.view_target = Except.ok (some vt) ∧
      s'.players = (updateLoop ctx cache vt entities).1 := by
  unfold PlayerESP.update at hupd
  cases hel : ctx.entity_list with
  | error e => simp only [hel] at hupd; simp at hupd
  | ok entities =>
    simp only [hel] at hupd
    cases hcc : ctx.class_name_cache with
    | error e => simp only [hcc] at hupd; simp at hupd
    | ok cache =>
      simp only [hcc] at hupd
      cases has : ctx.app_settings with
      | error e => simp only [has] at hupd; simp at hupd
      | ok stg =>
        simp only [has] at hupd
        by_cases htog : ¬ tog = true
        · rw [if_pos htog] at hupd
          injection hupd with h1 h2
          left
          rw [← h1]
        · rw [if_neg htog] at hupd
          cases hmem : ctx.memory with
          | error e => simp only [hmem] at hupd; simp at hupd
          | ok u =>
            cases u
            simp only [hmem] at hupd
            cases hctl : ctx.local_player_controller with
            | error e => simp only [hctl] at hupd; simp at hupd
            | ok octl =>
              simp only [hctl] at hupd
              cases octl with
              | none =>
                injection hupd with h1 h2
                left
                rw [← h1]
              | some ctl =>
                cases htm : ctl.pending_team_num with
                | error e => simp only [htm] at hupd; simp at hupd
                | ok team =>
                  simp only [htm] at hupd
                  cases hvt : ctx.view_target with
                  | error e => simp only [hvt] at hupd; simp at hupd
                  | ok ovt =>
                    simp only [hvt] at hupd
                    cases ovt with
                    | none =>
                      injection hupd with h1 h2
                      left
                      rw [← h1]
                    | some vt =>
                      injection hupd with h1 h2
                      right
                      exact ⟨entities, cache, vt, rfl, rfl, rfl, by rw [← h1]⟩

/-- C1: after every successful update tick, every record in the
snapshot has health strictly positive and a resolved name. -/
theorem update_success_health_and_name :
    ∀ (ctx : UpdateContext) (toggleEnabled : Bool) (s s' : PlayerESP),
      PlayerESP.update ctx toggleEnabled s = (s', Except.ok ()) →
      ∀ p ∈ s'.players,
        0 < p.pawn_info.player_health ∧ p.pawn_info.player_name.isSome = true := by
  intro ctx tog s s' hupd p hp
  rcases update_ok_cases ctx tog s s' hupd with hemp | ⟨entities, cache, vt, _, _, _, hps⟩
  · rw [hemp] at hp
    simp at hp
  · rw [hps] at hp
    exact ⟨(updateLoop_mem_spec ctx cache vt entities p hp).1,
           (updateLoop_mem_spec ctx cache vt entities p hp).2.1⟩

/-- Witness for C1 at a concrete context whose single entity survives
every filter. -/
theorem update_success_health_and_name_witness :
    0 < piW7.player_health ∧ piW7.player_name.isSome = true :=
  update_success_health_and_name ctxW true ⟨[], 0⟩ ⟨[⟨piW7, pmW⟩], 3⟩ (by rfl)
    ⟨piW7, pmW⟩ (List.mem_singleton.mpr rfl)

/-- C2: after every successful update tick, no record in the snapshot
carries the viewer's camera-target entity identity (assuming pawn
attribute resolution reports the queried entity's index as the record
identity). -/
theorem update_snapshot_excludes_view_target :
    ∀ (ctx : UpdateContext) (toggleEnabled : Bool) (s s' : PlayerESP) (vt : Nat),
      (∀ (h : EntityHandle) (pi : StatePawnInfo),
        ctx.pawn_info h = Except.ok pi → pi.identity = h.entityIndex) →
      PlayerESP.update ctx toggleEnabled s = (s', Except.ok ()) →
      ctx.view_target = Except.ok (some vt) →
      ∀ p ∈ s'.players, p.pawn_info.identity ≠ vt := by
  intro ctx tog s s' vt hid hupd hvt p hp
  rcases update_ok_cases ctx tog s s' hupd with hemp | ⟨entities, cache, vt', _, _, hvt', hps⟩
  · rw [hemp] at hp
    simp at hp
  · rw [hps] at hp
    obtain ⟨-, -, h, hne, hpi⟩ := updateLoop_mem_spec ctx cache vt' entities p hp
    rw [hvt'] at hvt
    injection hvt with h1
    injection h1 with h2
    rw [hid h p.pawn_info hpi, ← h2]
    exact hne

/-- Witness for C2 at a concrete context: the surviving record's
identity (7) differs from the camera target (1). -/
theorem update_snapshot_excludes_view_target_witness :
    piW7.identity ≠ 1 := by
  have hid : ∀ (h : EntityHandle) (pi : StatePawnInfo),
      ctxW.pawn_info h = Except.ok pi → pi.identity = h.entityIndex := by
    intro h pi hpi
    simp only [ctxW] at hpi
    injection hpi with h1
    rw [← h1]
  exact update_snapshot_excludes_view_target ctxW true ⟨[], 0⟩ ⟨[⟨piW7, pmW⟩], 3⟩ 1 hid
    (by rfl) (by rfl) ⟨piW7, pmW⟩ (List.mem_singleton.mpr rfl)

/-- C10: absence conditions are successes: a missing camera-target
identity makes the update tick return `Ok` with an empty snapshot, and
a missing camera world position makes the render pass return `Ok`
having emitted no draw command. -/
theorem absence_conditions_return_success :
    (∀ (ctx : UpdateContext) (s : PlayerESP) (entities : List EntityIdentity)
      (cache : ClassNameCache) (stg : AppSettings) (ctl : LocalPlayerController) (team : Nat),
      ctx.entity_list = Except.ok entities →
      ctx.class_name_cache = Except.ok cache →
      ctx.app_settings = Except.ok stg →
      ctx.memory = Except.ok () →
      ctx.local_player_controller = Except.ok (some ctl) →
      ctl.pending_team_num = Except.ok team →
      ctx.view_target = Except.ok none →
      PlayerESP.update ctx true s = ({ players := [], local_team_id := team }, Except.ok ()))
    ∧ (∀ (rc : RenderContext) (s : PlayerESP) (stg : AppSettings) (view : ViewController),
      rc.app_settings = Except.ok stg → rc.view = Except.ok view →
      view.camera_world_position = none →
      PlayerESP.render rc s = Except.ok []) := by
  constructor
  · intro ctx s entities cache stg ctl team hel hcc has hmem hctl htm hvt
    unfold PlayerESP.update
    simp only [hel, hcc, has, hmem, hctl, htm, hvt]
    simp
  · intro rc s stg view has hv hcam
    unfold PlayerESP.render
    simp only [has, hv, hcam]

/-- Witness for C10: the two absence conditions at concrete contexts. -/
theorem absence_conditions_return_success_witness :
    PlayerESP.update ctxNoTarget true ⟨[], 0⟩
      = ({ players := [], local_team_id := 3 }, Except.ok ())
    ∧ PlayerESP.render rcNoCam ⟨[], 0⟩ = Except.ok [] := by
  constructor
  · exact absence_conditions_return_success.1 ctxNoTarget ⟨[], 0⟩ _ _ _ ⟨Except.ok 3⟩ 3
      rfl rfl rfl rfl (by rfl) rfl rfl
  · exact absence_conditions_return_success.2 rcNoCam ⟨[], 0⟩ settingsNone viewNoCam
      rfl rfl rfl

lemma updateLoop_fail_mid (ctx : UpdateContext) (cache : ClassNameCache) (vt : Nat)
    (e : EntityIdentity) (post : List EntityIdentity) (h : EntityHandle) (ci : Nat) (err : Err)
    (hh : e.handleRes = Except.ok h) (hne : h.entityIndex ≠ vt)
    (hci : e.entity_class_info = Except.ok ci)
    (hcl : cache ci = Except.ok (some "C_CSPlayerPawn"))
    (hst : ctx.pawn_state h = Except.ok PlayerPawnState.Alive)
    (hpi : ctx.pawn_info h = Except.error err) :
    ∀ (pre : List EntityIdentity) (ps0 : List PlayerESPInfo),
      updateLoop ctx cache vt pre = (ps0, none) →
      updateLoop ctx cache vt (pre ++ e :: post) = (ps0, some err) := by
  intro pre
  induction pre with
  | nil =>
    intro ps0 h0
    rw [updateLoop] at h0
    injection h0 with h1 h2
    subst h1
    rw [List.nil_append, updateLoop]
    simp only [hh, if_neg hne, hci, hcl, hst, hpi]
    simp
  | cons a rest ih =>
    intro ps0 h0
    rw [updateLoop] at h0
    rw [List.cons_append, updateLoop]
    cases ha : a.handleRes with
    | error err2 =>
      simp only [ha] at h0
      injection h0 with h1 h2
      exact absurd h2 (by simp)
    | ok ha2 =>
      simp only [ha] at h0
      simp only [ha]
      by_cases hidx : ha2.entityIndex = vt
      · rw [if_pos hidx] at h0
        rw [if_pos hidx]
        exact ih ps0 h0
      · rw [if_neg hidx] at h0
        rw [if_neg hidx]
        cases hci2 : a.entity_class_info with
        | error err2 =>
          simp only [hci2] at h0
          injection h0 with h1 h2
          exact absurd h2 (by simp)
        | ok ci2 =>
          simp only [hci2] at h0
          simp only [hci2]
          cases hcl2 : cache ci2 with
          | error err2 =>
            simp only [hcl2] at h0
            injection h0 with h1 h2
            exact absurd h2 (by simp)
          | ok cls2 =>
            simp only [hcl2] at h0
            simp only [hcl2]
            by_cases hcls2 : cls2 ≠ some "C_CSPlayerPawn"
            · rw [if_pos hcls2] at h0
              rw [if_pos hcls2]
              exact ih ps0 h0
            · rw [if_neg hcls2] at h0
              rw [if_neg hcls2]
              cases hst2 : ctx.pawn_state ha2 with
              | error err2 =>
                simp only [hst2] at h0
                injection h0 with h1 h2
                exact absurd h2 (by simp)
              | ok st2 =>
                simp only [hst2] at h0
                simp only [hst2]
                by_cases hal2 : st2 ≠ PlayerPawnState.Alive
                · rw [if_pos hal2] at h0
                  rw [if_pos hal2]
                  exact ih ps0 h0
                · rw [if_neg hal2] at h0
                  rw [if_neg hal2]
                  cases hpi2 : ctx.pawn_info ha2 with
                  | error err2 =>
                    simp only [hpi2] at h0
                    injection h0 with h1 h2
                    exact absurd h2 (by simp)
                  | ok pi2 =>
                    simp only [hpi2] at h0
                    simp only [hpi2]
                    by_cases hflt2 : pi2.player_health ≤ 0 ∨ pi2.player_name = none
                    · rw [if_pos hflt2] at h0
                      rw [if_pos hflt2]
                      exact ih ps0 h0
                    · rw [if_neg hflt2] at h0
                      rw [if_neg hflt2]
                      cases hpm2 : ctx.pawn_model ha2 with
                      | error err2 =>
                        simp only [hpm2] at h0
                        injection h0 with h1 h2
                        exact absurd h2 (by simp)
                      | ok pm2 =>
                        simp only [hpm2] at h0
                        simp only [hpm2]
                        change ((⟨pi2, pm2⟩ : PlayerESPInfo) ::
                          (updateLoop ctx cache vt rest).1,
                          (updateLoop ctx cache vt rest).2) = (ps0, none) at h0
                        injection h0 with h1 h2
                        have hrec := ih (updateLoop ctx cache vt rest).1 (by
                          rw [← h2])
                        change ((⟨pi2, pm2⟩ : PlayerESPInfo) ::
                          (updateLoop ctx cache vt (rest ++ e :: post)).1,
                          (updateLoop ctx cache vt (rest ++ e :: post)).2) = (ps0, some err)
                        rw [hrec, ← h1]

/-- C3 (amended): a per-entity resolution failure propagates and aborts
the tick — the caller receives exactly that error — but the snapshot
buffer is not emptied: it is left holding exactly the records of the
entities processed before the failure. -/
theorem update_error_aborts_tick :
    ∀ (ctx : UpdateContext) (s : PlayerESP) (cache : ClassNameCache) (stg : AppSettings)
      (ctl : LocalPlayerController) (team vt : Nat)
      (pre post : List EntityIdentity) (e : EntityIdentity)
      (h : EntityHandle) (ci : Nat) (err : Err) (ps0 : List PlayerESPInfo),
      ctx.entity_list = Except.ok (pre ++ e :: post) →
      ctx.class_name_cache = Except.ok cache →
      ctx.app_settings = Except.ok stg →
      ctx.memory = Except.ok () →
      ctx.local_player_controller = Except.ok (some ctl) →
      ctl.pending_team_num = Except.ok team →
      ctx.view_target = Except.ok (some vt) →
      updateLoop ctx cache vt pre = (ps0, none) →
      e.handleRes = Except.ok h → h.entityIndex ≠ vt →
      e.entity_class_info = Except.ok ci →
      cache ci = Except.ok (some "C_CSPlayerPawn") →
      ctx.pawn_state h = Except.ok PlayerPawnState.Alive →
      ctx.pawn_info h = Except.error err →
      PlayerESP.update ctx true s
        = ({ players := ps0, local_team_id := team }, Except.error err) := by
  intro ctx s cache stg ctl team vt pre post e h ci err ps0
  intro hel hcc has hmem hctl htm hvt hpre hh hne hci hcl hst hpi
  have hloop := updateLoop_fail_mid ctx cache vt e post h ci err hh hne hci hcl hst hpi pre ps0 hpre
  unfold PlayerESP.update
  simp only [hel, hcc, has, hmem, hctl, htm, hvt, hloop]
  simp

/-- Counterexample for C3 as stated: at `ctxC3` the tick returns the
read error to the caller, yet the snapshot buffer holds the record of
the entity processed before the failure — a partial snapshot is
produced. -/
theorem update_failure_buffer_not_emptied :
    PlayerESP.update ctxC3 true ⟨[], 0⟩
      = (⟨[⟨piW2, pmW⟩], 3⟩, Except.error "read timeout")
    ∧ (⟨[⟨piW2, pmW⟩], 3⟩ : PlayerESP).players ≠ [] := by
  constructor
  · rfl
  · simp

/-- Witness for the amended C3 at the concrete context `ctxC3`. -/
theorem update_error_aborts_tick_witness :
    PlayerESP.update ctxC3 true ⟨[], 0⟩
      = ({ players := [⟨piW2, pmW⟩], local_team_id := 3 }, Except.error "read timeout") :=
  update_error_aborts_tick ctxC3 ⟨[], 0⟩ (fun _ => Except.ok (some "C_CSPlayerPawn"))
    settingsNone ⟨Except.ok 3⟩ 3 0 [⟨Except.ok ⟨2⟩, Except.ok 0⟩] [] ⟨Except.ok ⟨3⟩, Except.ok 0⟩
    ⟨3⟩ 0 "read timeout" [⟨piW2, pmW⟩]
    (by rfl) (by rfl) (by rfl) (by rfl) (by rfl) (by rfl) (by rfl) (by rfl) (by rfl)
    (by simp) (by rfl) (by rfl) (by rfl) (by rfl)

lemma skeletonLoop_eq_filterMap (view : ViewController) (states : List BoneState)
    (color : Color) (width : ℚ) :
    ∀ l : List (Bone × BoneState),
      (∀ pair ∈ l, parentInBounds states pair.1 = true) →
      skeletonLoop view states color width l
        = some (l.filterMap (skeletonEmit view states color width)) := by
  intro l
  induction l with
  | nil => intro _; simp [skeletonLoop]
  | cons pair rest ih =>
    intro hb
    obtain ⟨bone, state⟩ := pair
    have hbhead := hb ⟨bone, state⟩ (List.mem_cons_self _ _)
    have hbrest : ∀ pair ∈ rest, parentInBounds states pair.1 = true :=
      fun q hq => hb q (List.mem_cons_of_mem _ hq)
    rw [skeletonLoop]
    by_cases hhit : bone.isHitbox = true
    · rw [if_neg (not_not_intro hhit)]
      cases hpar : bone.parent with
      | none => rw [ih hbrest]; simp [skeletonEmit, hhit, hpar]
      | some pidx =>
        have hlt : pidx < states.length := by
          simp [parentInBounds, hpar] at hbhead
          exact hbhead
        cases hg : states.get? pidx with
        | none => exact absurd (List.get?_eq_none.mp hg) (by omega)
        | some pst =>
          have hg' : states[pidx]? = some pst := by
            rw [← List.get?_eq_getElem?]
            exact hg
          cases hw1 : view.world_to_screen pst.position true with
          | none => rw [ih hbrest]; simp [skeletonEmit, hhit, hpar, hg, hg', hw1]
          | some pp =>
            cases hw2 : view.world_to_screen state.position true with
            | none => rw [ih hbrest]; simp [skeletonEmit, hhit, hpar, hg, hg', hw1, hw2]
            | some bp =>
              rw [ih hbrest]
              simp [skeletonEmit, hhit, hpar, hg, hg', hw1, hw2]
    · rw [if_pos hhit, ih hbrest]
      simp [skeletonEmit, hhit]

lemma skeletonEmit_eq_some_iff (view : ViewController) (states : List BoneState)
    (color : Color) (width : ℚ) (bone : Bone) (state : BoneState) (cmd : DrawCmd) :
    skeletonEmit view states color width (bone, state) = some cmd ↔
      bone.isHitbox = true
      ∧ ∃ pidx pst, bone.parent = some pidx ∧ states.get? pidx = some pst
        ∧ ∃ pp bp, view.world_to_screen pst.position true = some pp
          ∧ view.world_to_screen state.position true = some bp
          ∧ cmd = DrawCmd.line pp bp color width := by
  unfold skeletonEmit
  by_cases hhit : bone.isHitbox = true
  · rw [if_neg (not_not_intro hhit)]
    cases hpar : bone.parent with
    | none => simp [hhit, hpar]
    | some pidx =>
      cases hg : states.get? pidx with
      | none =>
        have hg' : states[pidx]? = none := by
          rw [← List.get?_eq_getElem?]
          exact hg
        simp [hhit, hpar, hg, hg']
      | some pst =>
        have hg' : states[pidx]? = some pst := by
          rw [← List.get?_eq_getElem?]
          exact hg
        cases hw1 : view.world_to_screen pst.position true with
        | none => simp [hhit, hpar, hg, hg', hw1]
        | some pp =>
          cases hw2 : view.world_to_screen state.position true with
          | none => simp [hhit, hpar, hg, hg', hw1, hw2]
          | some bp =>
            constructor
            · intro hsome
              simp only [hg, hw1] at hsome
              injection hsome with hsome
              exact ⟨hhit, pidx, pst, rfl, hg, pp, bp, hw1, rfl, hsome.symm⟩
            · rintro ⟨-, pidx2, pst2, hpar2, hg2, pp2, bp2, hw12, hw22, rfl⟩
              injection hpar2 with he
              subst he
              rw [hg] at hg2
              injection hg2 with he2
              subst he2
              rw [hw1] at hw12
              injection hw12 with he3
              subst he3
              injection hw22 with he4
              subst he4
              simp only [hg, hw1]
  · rw [if_pos hhit]
    simp [hhit]

/-- C6: when every bone's parent index is a valid index into the
bone-state sequence, the skeleton loop's direct parent indexing is in
bounds and the draw succeeds; without that precondition the access can
be out of bounds (`emOob`: parent index 5 against one bone state). -/
theorem skeleton_parent_access_in_bounds :
    (∀ (view : ViewController) (em : CS2Model) (pm : StatePawnModelInfo)
      (color : Color) (width : ℚ),
      (∀ b ∈ em.bones, parentInBounds pm.bone_states b = true) →
      (skeletonCmds view em pm color width).isSome = true)
    ∧ skeletonCmds viewProj emOob pmOob colW 1 = none := by
  constructor
  · intro view em pm color width hb
    unfold skeletonCmds
    rw [skeletonLoop_eq_filterMap]
    · rfl
    · intro pair hpair
      obtain ⟨bone, state⟩ := pair
      exact hb bone (List.of_mem_zip hpair).1
  · rfl

/-- Witness for C6 at an aligned model (`emIn`: parent index 0, one
bone state). -/
theorem skeleton_parent_access_in_bounds_witness :
    (skeletonCmds viewProj emIn pmOob colW 1).isSome = true :=
  skeleton_parent_access_in_bounds.1 viewProj emIn pmOob colW 1 (by decide)

/-- C7: under the alignment precondition, a segment is in the skeleton
draw iff its bone is a hitbox bone with a parent and both endpoint
projections succeed; a model whose bones all lack parents emits no
segment. -/
theorem skeleton_segment_emitted_iff :
    ∀ (view : ViewController) (em : CS2Model) (pm : StatePawnModelInfo)
      (color : Color) (width : ℚ) (segs : List DrawCmd),
      (∀ b ∈ em.bones, parentInBounds pm.bone_states b = true) →
      skeletonCmds view em pm color width = some segs →
      (∀ cmd, cmd ∈ segs ↔
        ∃ bone state, (bone, state) ∈ em.bones.zip pm.bone_states
          ∧ bone.isHitbox = true
          ∧ ∃ pidx pst, bone.parent = some pidx
            ∧ pm.bone_states.get? pidx = some pst
            ∧ ∃ pp bp, view.world_to_screen pst.position true = some pp
              ∧ view.world_to_screen state.position true = some bp
              ∧ cmd = DrawCmd.line pp bp color width)
      ∧ ((∀ b ∈ em.bones, b.parent = none) → segs = []) := by
  intro view em pm color width segs hb hres
  unfold skeletonCmds at hres
  rw [skeletonLoop_eq_filterMap view pm.bone_states color width _
    (fun pair hp => by obtain ⟨b, st⟩ := pair; exact hb b (List.of_mem_zip hp).1)] at hres
  injection hres with hsegs
  subst hsegs
  constructor
  · intro cmd
    rw [List.mem_filterMap]
    constructor
    · rintro ⟨⟨bone, state⟩, hmem, hemit⟩
      exact ⟨bone, state, hmem,
        (skeletonEmit_eq_some_iff view pm.bone_states color width bone state cmd).mp hemit⟩
    · rintro ⟨bone, state, hmem, hcond⟩
      exact ⟨(bone, state), hmem,
        (skeletonEmit_eq_some_iff view pm.bone_states color width bone state cmd).mpr hcond⟩
  · intro hroots
    rw [List.filterMap_eq_nil_iff]
    intro pair hp
    obtain ⟨bone, state⟩ := pair
    have hpar := hroots bone (List.of_mem_zip hp).1
    unfold skeletonEmit
    rw [hpar]
    simp

/-- Witness for C7 at `emTwo`/`pmTwo`: the child hitbox bone with a
valid parent and two successful projections emits exactly its segment,
while the root bone emits none. -/
theorem skeleton_segment_emitted_iff_witness :
    DrawCmd.line ⟨0, 10⟩ ⟨1, 20⟩ colW 1
      ∈ [DrawCmd.line ⟨0, 10⟩ ⟨1, 20⟩ colW 1] := by
  have hiff := (skeleton_segment_emitted_iff viewProj emTwo pmTwo colW 1
    [DrawCmd.line ⟨0, 10⟩ ⟨1, 20⟩ colW 1] (by decide) (by rfl)).1
  exact (hiff (DrawCmd.line ⟨0, 10⟩ ⟨1, 20⟩ colW 1)).mpr
    ⟨⟨"child", 256, some 0⟩, ⟨⟨1, 0, 20⟩⟩, by decide, by decide, 0, ⟨⟨0, 0, 10⟩⟩,
      rfl, by rfl, ⟨0, 10⟩, ⟨1, 20⟩, by rfl, by rfl, rfl⟩

/-- C8: for any placement side, the health-bar fill splits the inner
bar (after the 1-unit border and padding inset, i.e. 3 units off each
dimension) at `(1 - rel)` of the inner extent — red first, green second
— choosing the vertical axis exactly when the inner width is below the
inner height; at `rel = 0` the red rectangle covers the whole inner bar
and the green one is degenerate, and at `rel = 1` symmetrically. -/
theorem health_bar_split_axis_and_extremes :
    ∀ (es : EspPlayerSettings) (vmin vmax : Vec2) (rel x y w h : ℚ),
      healthBarBounds es vmin vmax = some (x, y, w, h) →
      healthBarCmds es vmin vmax rel
        = healthBarBorder x y w h :: healthBarFill x y w h rel
      ∧ (w - 3 < h - 3 →
          healthBarFill x y w h rel =
            [.rect ⟨x + 3/2, y + 3/2⟩ ⟨x + 3/2 + (w - 3), y + 3/2 + (1 - rel) * (h - 3)⟩
              ⟨1, 0, 0, 1⟩ true 1,
             .rect ⟨x + 3/2, y + 3/2 + (1 - rel) * (h - 3)⟩
               ⟨x + 3/2 + (w - 3), y + 3/2 + (h - 3)⟩ ⟨0, 1, 0, 1⟩ true 1])
      ∧ (¬ w - 3 < h - 3 →
          healthBarFill x y w h rel =
            [.rect ⟨x + 3/2, y + 3/2⟩ ⟨x + 3/2 + (1 - rel) * (w - 3), y + 3/2 + (h - 3)⟩
              ⟨1, 0, 0, 1⟩ true 1,
             .rect ⟨x + 3/2 + (1 - rel) * (w - 3), y + 3/2⟩
               ⟨x + 3/2 + (w - 3), y + 3/2 + (h - 3)⟩ ⟨0, 1, 0, 1⟩ true 1])
      ∧ (rel = 0 → w - 3 < h - 3 →
          healthBarFill x y w h rel =
            [.rect ⟨x + 3/2, y + 3/2⟩ ⟨x + 3/2 + (w - 3), y + 3/2 + (h - 3)⟩
              ⟨1, 0, 0, 1⟩ true 1,
             .rect ⟨x + 3/2, y + 3/2 + (h - 3)⟩ ⟨x + 3/2 + (w - 3), y + 3/2 + (h - 3)⟩
               ⟨0, 1, 0, 1⟩ true 1])
      ∧ (rel = 1 → w - 3 < h - 3 →
          healthBarFill x y w h rel =
            [.rect ⟨x + 3/2, y + 3/2⟩ ⟨x + 3/2 + (w - 3), y + 3/2⟩ ⟨1, 0, 0, 1⟩ true 1,
             .rect ⟨x + 3/2, y + 3/2⟩ ⟨x + 3/2 + (w - 3), y + 3/2 + (h - 3)⟩
               ⟨0, 1, 0, 1⟩ true 1])
      ∧ (rel = 0 → ¬ w - 3 < h - 3 →
          healthBarFill x y w h rel =
            [.rect ⟨x + 3/2, y + 3/2⟩ ⟨x + 3/2 + (w - 3), y + 3/2 + (h - 3)⟩
              ⟨1, 0, 0, 1⟩ true 1,
             .rect ⟨x + 3/2 + (w - 3), y + 3/2⟩ ⟨x + 3/2 + (w - 3), y + 3/2 + (h - 3)⟩
               ⟨0, 1, 0, 1⟩ true 1])
      ∧ (rel = 1 → ¬ w - 3 < h - 3 →
          healthBarFill x y w h rel =
            [.rect ⟨x + 3/2, y + 3/2⟩ ⟨x + 3/2, y + 3/2 + (h - 3)⟩ ⟨1, 0, 0, 1⟩ true 1,
             .rect ⟨x + 3/2, y + 3/2⟩ ⟨x + 3/2 + (w - 3), y + 3/2 + (h - 3)⟩
               ⟨0, 1, 0, 1⟩ true 1]) := by
  intro es vmin vmax rel x y w h hb
  have hcons : healthBarCmds es vmin vmax rel
      = healthBarBorder x y w h :: healthBarFill x y w h rel := by
    unfold healthBarCmds
    rw [hb]
  have hlt' : ∀ u v : ℚ, u - 3 < v - 3 ↔ u - (borderWidth + 2) < v - (borderWidth + 2) := by
    intro u v
    unfold borderWidth
    constructor <;> intro hx <;> linarith
  refine ⟨hcons, ?_, ?_, ?_, ?_, ?_, ?_⟩
  · intro hlt
    unfold healthBarFill
    rw [if_pos ((hlt' w h).mp hlt)]
    unfold borderWidth
    norm_num
    exact ⟨by ring, by ring⟩
  · intro hge
    unfold healthBarFill
    rw [if_neg (fun hc => hge ((hlt' w h).mpr hc))]
    unfold borderWidth
    norm_num
    exact ⟨by ring, by ring⟩
  · intro hrel hlt
    subst hrel
    unfold healthBarFill
    rw [if_pos ((hlt' w h).mp hlt)]
    unfold borderWidth
    norm_num
    exact ⟨by ring, by ring⟩
  · intro hrel hlt
    subst hrel
    unfold healthBarFill
    rw [if_pos ((hlt' w h).mp hlt)]
    unfold borderWidth
    norm_num
    exact ⟨by ring, by ring⟩
  · intro hrel hge
    subst hrel
    unfold healthBarFill
    rw [if_neg (fun hc => hge ((hlt' w h).mpr hc))]
    unfold borderWidth
    norm_num
    exact ⟨by ring, by ring⟩
  · intro hrel hge
    subst hrel
    unfold healthBarFill
    rw [if_neg (fun hc => hge ((hlt' w h).mpr hc))]
    unfold borderWidth
    norm_num
    exact ⟨by ring, by ring⟩

/-- Witness for C8: the left-placed bar of `esBar` at health 0 is
entirely red (vertical split, inner height 101, green degenerate). -/
theorem health_bar_split_axis_and_extremes_witness :
    healthBarCmds esBar ⟨50, 50⟩ ⟨60, 150⟩ 0
      = [healthBarBorder 38 48 10 104,
         .rect ⟨38 + 3/2, 48 + 3/2⟩ ⟨38 + 3/2 + (10 - 3), 48 + 3/2 + (104 - 3)⟩
           ⟨1, 0, 0, 1⟩ true 1,
         .rect ⟨38 + 3/2, 48 + 3/2 + (104 - 3)⟩ ⟨38 + 3/2 + (10 - 3), 48 + 3/2 + (104 - 3)⟩
           ⟨0, 1, 0, 1⟩ true 1] := by
  have hth := health_bar_split_axis_and_extremes esBar ⟨50, 50⟩ ⟨60, 150⟩ 0 38 48 10 104
    (by norm_num [healthBarBounds, esBar, esBase])
  rw [hth.1, hth.2.2.2.1 rfl (by norm_num)]

lemma vec3_add_def (a b : Vec3) : a + b = ⟨a.x + b.x, a.y + b.y, a.z + b.z⟩ := rfl

/-- C9 (amended): any circle emitted by the head-marker draw has radius
`min |Δy| 250 * base_radius`: the apparent on-screen head size is
capped at 250 before the configured base-radius scaling, so the circle
radius is at most `250 * base_radius` (for a nonnegative base radius)
and at most 250 whenever `base_radius ≤ 1`; a base radius above 1 can
push it past 250. -/
theorem head_dot_radius_cap_scaled :
    ∀ (es : EspPlayerSettings) (view : ViewController) (em : CS2Model)
      (pm : StatePawnModelInfo) (rel dist : ℚ)
      (c : Vec2) (r : ℚ) (col : Color) (fl : Bool) (th : ℚ),
      DrawCmd.circle c r col fl th ∈ headDotCmds es view em pm rel dist →
      (∃ dy : ℚ, 0 ≤ dy ∧ r = min dy maxHeadSize * es.head_dot_base_radius)
      ∧ (0 ≤ es.head_dot_base_radius → r ≤ maxHeadSize * es.head_dot_base_radius)
      ∧ (es.head_dot_base_radius ≤ 1 → r ≤ maxHeadSize) := by
  intro es view em pm rel dist c r col fl th hmem
  unfold headDotCmds at hmem
  by_cases hnone : es.head_dot = EspHeadDot.None
  · rw [if_pos hnone] at hmem
    simp at hmem
  · rw [if_neg hnone] at hmem
    cases hidx : em.bones.findIdx? (fun bone => bone.name = "head_0") with
    | none => simp only [hidx] at hmem; simp at hmem
    | some head_bone_index =>
      simp only [hidx] at hmem
      cases hgs : pm.bone_states.get? head_bone_index with
      | none => simp only [hgs] at hmem; simp at hmem
      | some head_state =>
        simp only [hgs] at hmem
        cases hw1 : view.world_to_screen (head_state.position + ⟨0, 0, es.head_dot_z⟩) true with
        | none => simp only [hw1] at hmem; simp at hmem
        | some hsp =>
          simp only [hw1] at hmem
          cases hw2 : view.world_to_screen
              (head_state.position + ⟨0, 0, es.head_dot_z + 2⟩) true with
          | none => simp only [hw2] at hmem; simp at hmem
          | some hsf =>
            simp only [hw2] at hmem
            have hkey : r = min |hsp.y - hsf.y| maxHeadSize * es.head_dot_base_radius := by
              cases hdot : es.head_dot with
              | None => exact absurd hdot hnone
              | Filled =>
                simp only [hdot] at hmem
                rw [List.mem_singleton] at hmem
                injection hmem
              | NotFilled =>
                simp only [hdot] at hmem
                rw [List.mem_singleton] at hmem
                injection hmem
            have hub : min |hsp.y - hsf.y| maxHeadSize ≤ maxHeadSize := min_le_right _ _
            have hlb : 0 ≤ min |hsp.y - hsf.y| maxHeadSize := by
              have h250 : (0 : ℚ) ≤ maxHeadSize := by unfold maxHeadSize; norm_num
              exact le_min (abs_nonneg _) h250
            refine ⟨⟨|hsp.y - hsf.y|, abs_nonneg _, hkey⟩, ?_, ?_⟩
            · intro hbr
              rw [hkey]
              exact mul_le_mul_of_nonneg_right hub hbr
            · intro hbr1
              rw [hkey]
              rcases le_or_lt es.head_dot_base_radius 0 with hbr0 | hbr0
              · have := mul_nonpos_of_nonneg_of_nonpos hlb hbr0
                have h250 : (0 : ℚ) ≤ maxHeadSize := by unfold maxHeadSize; norm_num
                linarith
              · have h1 : min |hsp.y - hsf.y| maxHeadSize * es.head_dot_base_radius
                    ≤ min |hsp.y - hsf.y| maxHeadSize * 1 :=
                  mul_le_mul_of_nonneg_left hbr1 hlb
                have h2 : min |hsp.y - hsf.y| maxHeadSize * 1
                    = min |hsp.y - hsf.y| maxHeadSize := mul_one _
                linarith

/-- Counterexample for C9 as stated: with base radius 2 and the two
head probe points landing 300 pixels apart, the emitted circle has
radius `min 300 250 * 2 = 500`, which exceeds the 250 maximum — only
the pre-scaling apparent size is capped. -/
theorem head_dot_radius_exceeds_cap :
    headDotCmds esHead2 viewHead emHead pmHead 1 0
      = [DrawCmd.circle ⟨0, 0⟩ 500 colW true 1]
    ∧ ¬ (500 : ℚ) ≤ maxHeadSize := by
  constructor
  · unfold headDotCmds
    norm_num [esHead2, esBase, viewHead, viewProj, emHead, pmHead, maxHeadSize, colW,
      vec3_add_def, List.findIdx?]
    decide
  · unfold maxHeadSize
    norm_num

/-- Witness for the amended C9: with base radius 1/2 (≤ 1) the emitted
circle's radius 125 stays within the 250 maximum. -/
theorem head_dot_radius_cap_scaled_witness :
    (125 : ℚ) ≤ maxHeadSize := by
  have hmem : DrawCmd.circle ⟨0, 0⟩ 125 colW true 1
      ∈ headDotCmds esHeadHalf viewHead emHead pmHead 1 0 := by
    have heval : headDotCmds esHeadHalf viewHead emHead pmHead 1 0
        = [DrawCmd.circle ⟨0, 0⟩ 125 colW true 1] := by
      unfold headDotCmds
      norm_num [esHeadHalf, esHead2, esBase, viewHead, viewProj, emHead, pmHead,
        maxHeadSize, colW, vec3_add_def, List.findIdx?]
      decide
    rw [heval]
    exact List.mem_singleton.mpr rfl
  exact (head_dot_radius_cap_scaled esHeadHalf viewHead emHead pmHead 1 0
    ⟨0, 0⟩ 125 colW true 1 hmem).2.2 (by norm_num [esHeadHalf, esHead2, esBase])
